import Mathlib

/-!
Shallow embedding of the pattern-based object-repository core of the
playwright-cucumber framework: the `DynamicLocatorManager` class
(`src/e2e/objectRepository/managers/DynamicLocatorManager.ts`), the
`XPathRepositoryManager` class
(`src/e2e/objectRepository/managers/XPathRepository.ts`), and the
template-based facade actions of `PatternBasedLoginPage`
(`src/e2e/pages/PatternBasedLoginPage.ts`).

JavaScript objects used as string-keyed dictionaries are modelled as
insertion-ordered association lists (`List (String × β)`); `Object.entries`
iteration order is the list order, and the spread merge `\x7b...a, ...b\x7d`
is `jsMerge`.  A `Map` is also an insertion-ordered association list with
`Map.set` modelled by `mapSet`.  Thrown exceptions are `Except.error` carrying
the message string; the mutable fields of the singleton manager are threaded
explicitly as a `ManagerState`.  File-system reads are a read function
parameter `String → Except String _` (path to parse outcome).
-/

/-- First-match association-list lookup (JavaScript property access `o[k]`,
`undefined` becoming `none`). -/
def lookupKV {β : Type} : List (String × β) → String → Option β
  | [], _ => none
  | (k, v) :: rest, x => if x = k then some v else lookupKV rest x

/-- JavaScript `Map.set` / keyed insert: update the value in place if the key
is present (keeping its position), otherwise append the pair at the end. -/
def mapSet {β : Type} (m : List (String × β)) (k : String) (v : β) : List (String × β) :=
  if (lookupKV m k).isSome then
    m.map (fun kv => if kv.1 = k then (k, v) else kv)
  else
    m ++ [(k, v)]

/-- The value an object-spread merge `\x7b...a, ...b\x7d` keeps for a key of
`a`: the `b` value when `b` also has the key, the `a` value otherwise. -/
def jsMergeValue {β : Type} (b : List (String × β)) (k : String) (v : β) : β :=
  match lookupKV b k with
  | some w => w
  | none => v

/-- JavaScript object-spread merge `\x7b...a, ...b\x7d`: keys of `a` in their
order with values overridden by `b` where present, then the keys of `b` not in
`a`, in the order of `b`. -/
def jsMerge {β : Type} (a b : List (String × β)) : List (String × β) :=
  a.map (fun kv => (kv.1, jsMergeValue b kv.1 kv.2)) ++
  b.filter (fun kv => (lookupKV a kv.1).isNone)

/-- Does the character list `p` occur at the head of `cs`? -/
def startsWithL : List Char → List Char → Bool
  | [], _ => true
  | _ :: _, [] => false
  | p :: ps, c :: cs => p == c && startsWithL ps cs

/-- Replace every non-overlapping occurrence of `pat` in `cs` by `rep`,
scanning left to right and continuing after each replacement — the semantics
of JavaScript `String.prototype.replace` with a global regexp that matches the
literal text `pat`.  `fuel` bounds the recursion; callers pass the length of
`cs`, which suffices because `pat` is never empty at the call sites. -/
def replaceAllL (rep pat : List Char) : Nat → List Char → List Char
  | 0, cs => cs
  | _ + 1, [] => []
  | fuel + 1, c :: cs =>
    if startsWithL pat (c :: cs) then
      rep ++ replaceAllL rep pat fuel ((c :: cs).drop pat.length)
    else
      c :: replaceAllL rep pat fuel cs

/-- Replace all occurrences of `pat` in `s` by `rep`. -/
def strReplaceAll (s pat rep : String) : String :=
  (replaceAllL rep.data pat.data s.data.length s.data).asString

/-- Split a character list at every dot, the character-level semantics of
JavaScript `split(".")`. -/
def splitDots : List Char → List (List Char)
  | [] => [[]]
  | c :: rest =>
    match splitDots rest with
    | [] => [[]]
    | g :: gs => if c = '.' then [] :: g :: gs else (c :: g) :: gs

/-- JavaScript `path.split(".")`. -/
def splitOnDot (s : String) : List String :=
  (splitDots s.data).map List.asString

/-- Does `s` end with `suf` (JavaScript `endsWith`)? -/
def strEndsWith (s suf : String) : Bool :=
  startsWithL suf.data.reverse s.data.reverse

/-- JavaScript truthiness of an optional string: `undefined` and the empty
string are falsy. -/
def jsTruthy : Option String → Bool
  | none => false
  | some s => s != ""

/-- Escape a character for `JSON.stringify` string output. -/
def jsEscapeChar (c : Char) : String :=
  if c = '"' then "\\\"" else if c = '\\' then "\\\\" else String.singleton c

/-- `JSON.stringify` of a flat string-to-string object, used only to build
cache keys. -/
def jsonStringify (ps : List (String × String)) : String :=
  "\x7b" ++ String.intercalate ","
    (ps.map (fun kv =>
      "\"" ++ String.join (kv.1.data.map jsEscapeChar) ++ "\":\"" ++
        String.join (kv.2.data.map jsEscapeChar) ++ "\"")) ++ "\x7d"

-- =============================================================================
-- Data model (`DynamicLocatorManager.ts` interfaces)
-- =============================================================================

/-- Runtime or template parameter map: a JavaScript `Record<string, string>`. -/
abbrev Params := List (String × String)

/-- The anonymous `fallback` member of `TemplateDefinition`. -/
structure FallbackDefinition where
  pattern : String
  params : Params
  deriving DecidableEq

/-- `TemplateDefinition` interface. -/
structure TemplateDefinition where
  pattern : String
  params : Params
  fallback : Option FallbackDefinition
  suffix : Option String
  deriving DecidableEq

/-- The `validation` member of `PatternRepository`. -/
structure ValidationConfig where
  requiredPatterns : List String
  patternGroups : List (String × List String)
  deriving DecidableEq

/-- The `metadata` member of `PatternRepository`. -/
structure RepositoryMetadata where
  version : String
  description : String
  lastUpdated : String
  totalPatterns : Nat
  categories : List String
  deriving DecidableEq

/-- `PatternRepository` interface. -/
structure PatternRepository where
  patterns : List (String × List (String × String))
  staticElements : List (String × List (String × String))
  templates : List (String × List (String × TemplateDefinition))
  complexPatterns : List (String × List (String × String))
  validation : ValidationConfig
  metadata : RepositoryMetadata
  deriving DecidableEq

/-- `LocatorBuildResult` interface. -/
structure LocatorBuildResult where
  locator : String
  patternUsed : String
  parametersApplied : Params
  fallbackUsed : Bool
  description : Option String
  deriving DecidableEq

/-- The mutable instance fields of the `DynamicLocatorManager` singleton. -/
structure ManagerState where
  repository : Option PatternRepository
  repositoryPath : String
  cache : List (String × String)
  cacheEnabled : Bool
  deriving DecidableEq

-- =============================================================================
-- DynamicLocatorManager private helpers
-- =============================================================================

/-- `DynamicLocatorManager.getPattern`: split the dotted path and walk the
`patterns` table.  The walk is modelled for the `category.name` paths that the
declared type `Record<string, Record<string, string>>` populates; a leaf that
is the empty string is falsy in JavaScript, so the `if (!current)` in the source
also reports it as not found. -/
def getPattern (repository : Option PatternRepository) (patternPath : String) :
    Except String String :=
  match repository with
  | none => .error "❌ Repository not loaded"
  | some repo =>
    match splitOnDot patternPath with
    | [category, name] =>
      match lookupKV repo.patterns category with
      | none => .error ("❌ Pattern not found: " ++ patternPath)
      | some group =>
        match lookupKV group name with
        | none => .error ("❌ Pattern not found: " ++ patternPath)
        | some s =>
          if s = "" then .error ("❌ Pattern not found: " ++ patternPath)
          else .ok s
    | _ => .error ("❌ Pattern not found: " ++ patternPath)

/-- `DynamicLocatorManager.getTemplate`: split the dotted path and walk the
`templates` table (template objects are always truthy). -/
def getTemplate (repository : Option PatternRepository) (templatePath : String) :
    Except String TemplateDefinition :=
  match repository with
  | none => .error "❌ Repository not loaded"
  | some repo =>
    match splitOnDot templatePath with
    | [category, name] =>
      match lookupKV repo.templates category with
      | none => .error ("❌ Template not found: " ++ templatePath)
      | some group =>
        match lookupKV group name with
        | none => .error ("❌ Template not found: " ++ templatePath)
        | some t => .ok t
    | _ => .error ("❌ Template not found: " ++ templatePath)

/-- `DynamicLocatorManager.replaceParameters`: substitute every occurrence of
`\x7bkey\x7d` by its value, one parameter after the other in entry order.
(The source also logs a warning for placeholders left over after this pass;
that console output is modelled by `remainingPlaceholders` below and does not
influence the returned value.) -/
def replaceParameters (pattern : String) (parameters : Params) : String :=
  parameters.foldl
    (fun result kv => strReplaceAll result ("\x7b" ++ kv.1 ++ "\x7d") kv.2)
    pattern

/-- Matches of the regexp `/\x5c\x7b[^\x7d]+\x7d/g`: the maximal
`\x7b`…`\x7d` groups with a nonempty brace-free interior, scanned left to
right.  This is the `remainingPlaceholders` check inside
`replaceParameters` that drives the non-fatal console warning. -/
def scanPlaceholders : Nat → List Char → List String
  | 0, _ => []
  | _ + 1, [] => []
  | fuel + 1, c :: rest =>
    if c = '{' then
      match rest.drop (rest.takeWhile (· ≠ '}')).length with
      | '}' :: rest2 =>
        let inner := rest.takeWhile (· ≠ '}')
        if inner.isEmpty then
          scanPlaceholders fuel rest
        else
          ("\x7b" ++ inner.asString ++ "\x7d") :: scanPlaceholders fuel rest2
      | _ => scanPlaceholders fuel rest
    else
      scanPlaceholders fuel rest

/-- The unreplaced `\x7bkey\x7d` placeholders of a substituted string. -/
def remainingPlaceholders (s : String) : List String :=
  scanPlaceholders s.data.length s.data

/-- Is a parameter value a nested parameter reference, i.e. does it start with
`\x7b` and end with `\x7d` (`value.startsWith && value.endsWith` in
`resolveNestedParameters`)? -/
def bracedRef (v : String) : Bool :=
  match v.data.head?, v.data.getLast? with
  | some c, some d => c == '{' && d == '}'
  | _, _ => false

/-- `value.slice(1, -1)`: the text between the outer braces. -/
def nestedKeyOf (v : String) : String :=
  ((v.data.drop 1).dropLast).asString

/-- The per-value step of `DynamicLocatorManager.resolveNestedParameters`:
a value of the form `\x7bother\x7d` is replaced by `runtimeParams[other]`
when that is truthy (present and non-empty), and kept as-is otherwise. -/
def nestedValue (runtimeParams : Params) (v : String) : String :=
  if bracedRef v then
    match lookupKV runtimeParams (nestedKeyOf v) with
    | some w => if w = "" then v else w
    | none => v
  else v

/-- `DynamicLocatorManager.resolveNestedParameters`: rebuild the parameter
object, applying `nestedValue` to every entry in order. -/
def resolveNestedParameters (templateParams runtimeParams : Params) : Params :=
  templateParams.map (fun kv => (kv.1, nestedValue runtimeParams kv.2))

-- =============================================================================
-- DynamicLocatorManager public operations
-- =============================================================================

/-- The cache key `` `${patternPath}-${JSON.stringify(parameters)}` ``. -/
def cacheKey (patternPath : String) (parameters : Params) : String :=
  patternPath ++ "-" ++ jsonStringify parameters

/-- What the cache answers for a key: a hit requires `cacheEnabled`. -/
def cacheServe (s : ManagerState) (key : String) : Option String :=
  if s.cacheEnabled then lookupKV s.cache key else none

/-- `DynamicLocatorManager.buildLocator`: serve from the cache when enabled,
otherwise look the pattern up, substitute the parameters, and (when caching is
enabled) store the generated locator. -/
def buildLocator (s : ManagerState) (patternPath : String) (parameters : Params) :
    Except String (LocatorBuildResult × ManagerState) :=
  match s.repository with
  | none => .error "❌ Pattern repository not loaded. Call loadRepository() first."
  | some _ =>
    match cacheServe s (cacheKey patternPath parameters) with
    | some cachedLocator =>
      .ok ({ locator := cachedLocator,
             patternUsed := patternPath,
             parametersApplied := parameters,
             fallbackUsed := false,
             description := some "Retrieved from cache" }, s)
    | none =>
      match getPattern s.repository patternPath with
      | .error e => .error e
      | .ok pattern =>
        let locator := replaceParameters pattern parameters
        .ok ({ locator := locator,
               patternUsed := patternPath,
               parametersApplied := parameters,
               fallbackUsed := false,
               description := some ("Generated from pattern: " ++ patternPath) },
             if s.cacheEnabled then
               { s with cache := mapSet s.cache (cacheKey patternPath parameters) locator }
             else s)

/-- The parameter map `buildFromTemplate` passes to the primary pattern:
template parameters merged with runtime parameters (runtime precedence), then
nested references resolved against the runtime parameters. -/
def resolvedParameters (template : TemplateDefinition) (runtimeParameters : Params) : Params :=
  resolveNestedParameters (jsMerge template.params runtimeParameters) runtimeParameters

/-- The parameter map `buildFromTemplate` passes to the fallback pattern. -/
def resolvedFallbackParameters (fb : FallbackDefinition) (runtimeParameters : Params) : Params :=
  resolveNestedParameters (jsMerge fb.params runtimeParameters) runtimeParameters

/-- `if (template.suffix) finalLocator += template.suffix` — the suffix is
appended when truthy (present and non-empty). -/
def addSuffix (template : TemplateDefinition) (locator : String) : String :=
  if jsTruthy template.suffix then locator ++ template.suffix.getD "" else locator

/-- `DynamicLocatorManager.buildFromTemplate`: look the template up, merge and
resolve parameters, try the primary pattern, and on failure try the fallback
if one is defined, rethrowing the original error otherwise. -/
def buildFromTemplate (s : ManagerState) (templatePath : String)
    (runtimeParameters : Params) : Except String (LocatorBuildResult × ManagerState) :=
  match s.repository with
  | none => .error "❌ Pattern repository not loaded. Call loadRepository() first."
  | some _ =>
    match getTemplate s.repository templatePath with
    | .error e => .error e
    | .ok template =>
      match buildLocator s template.pattern (resolvedParameters template runtimeParameters) with
      | .ok (primaryResult, s₁) =>
        .ok ({ locator := addSuffix template primaryResult.locator,
               patternUsed := template.pattern,
               parametersApplied := resolvedParameters template runtimeParameters,
               fallbackUsed := false,
               description := some ("Template: " ++ templatePath) }, s₁)
      | .error e =>
        match template.fallback with
        | some fb =>
          match buildLocator s fb.pattern (resolvedFallbackParameters fb runtimeParameters) with
          | .ok (fallbackResult, s₂) =>
            .ok ({ locator := addSuffix template fallbackResult.locator,
                   patternUsed := fb.pattern,
                   parametersApplied := resolvedFallbackParameters fb runtimeParameters,
                   fallbackUsed := true,
                   description := some ("Template: " ++ templatePath ++ " (fallback used)") },
                 s₂)
          | .error e₂ => .error e₂
        | none => .error e

/-- The file path `loadRepository` reads:
`path.join(__dirname, "..", fileName.endsWith(".json") ? fileName : fileName + ".json")`. -/
def repoFilePath (dirname fileName : String) : String :=
  dirname ++ "/../" ++ (if strEndsWith fileName ".json" then fileName else fileName ++ ".json")

/-- `DynamicLocatorManager.loadRepository`: read and parse the JSON document
at the resolved path (modelled by the read function `readRepo`), then replace
`this.repository` and `this.repositoryPath`.  The cache is not touched. -/
def loadRepository (s : ManagerState) (fileName : String)
    (readRepo : String → Except String PatternRepository) (dirname : String) :
    Except String ManagerState :=
  let filePath := repoFilePath dirname fileName
  match readRepo filePath with
  | .ok repo => .ok { s with repository := some repo, repositoryPath := filePath }
  | .error err =>
    .error ("❌ Failed to load pattern repository: " ++ filePath ++ ". Error: " ++ err)

-- Sanity checks of the embedding on the literal examples used in the
-- documentation of the repository.

example : splitOnDot "basic.inputByName" = ["basic", "inputByName"] := rfl

example :
    replaceParameters "//input[@name=\x27{name}\x27]" [("name", "username")] =
      "//input[@name=\x27username\x27]" := rfl

example : remainingPlaceholders "//input[@name=\x27{name}\x27]" = ["\x7bname\x7d"] := rfl

example : remainingPlaceholders "//input[@name=\x27username\x27]" = [] := rfl

example : jsonStringify [("name", "username")] = "\x7b\"name\":\"username\"\x7d" := rfl

example :
    jsMerge [("name", "a"), ("id", "z")] [("name", "b"), ("extra", "c")] =
      [("name", "b"), ("id", "z"), ("extra", "c")] := rfl

example : nestedValue [("other", "val")] "\x7bother\x7d" = "val" := rfl

example : nestedValue [("other", "")] "\x7bother\x7d" = "\x7bother\x7d" := rfl

-- =============================================================================
-- XPathRepositoryManager (`XPathRepository.ts`)
-- =============================================================================

/-- The `waitStrategy` union type of `XPathElement`. -/
inductive WaitStrategy where
  | visible
  | clickable
  | present
  | hidden
  deriving DecidableEq

/-- `XPathElement` interface. -/
structure XPathElement where
  xpath : String
  alternateXpath : Option String
  description : String
  waitStrategy : WaitStrategy
  deriving DecidableEq

/-- The `page` member of `XPathRepository`. -/
structure XPathPageConfig where
  url : String
  title : String
  loadTimeout : Nat
  deriving DecidableEq

/-- `XPathRepository` interface. -/
structure XPathRepository where
  page : XPathPageConfig
  elements : List (String × XPathElement)
  xpathPatterns : List (String × String)
  errorMessages : List (String × String)
  waitStrategies : List (String × String)
  deriving DecidableEq

/-- The mutable field of the `XPathRepositoryManager` singleton: the map of
already-loaded repositories. -/
structure XrmState where
  repositories : List (String × XPathRepository)
  deriving DecidableEq

/-- The file path `XPathRepositoryManager.loadRepository` reads:
`path.join(__dirname, "../locators", fileName.endsWith(".json") ? fileName : fileName + ".json")`. -/
def xrmFilePath (dirname fileName : String) : String :=
  dirname ++ "/../locators/" ++
    (if strEndsWith fileName ".json" then fileName else fileName ++ ".json")

/-- `XPathRepositoryManager.loadRepository`: return the memoized repository if
this file name was loaded before, otherwise read, parse and memoize it. -/
def xrmLoadRepository (st : XrmState) (fileName : String)
    (readRepo : String → Except String XPathRepository) (dirname : String) :
    Except String (XPathRepository × XrmState) :=
  match lookupKV st.repositories fileName with
  | some repo => .ok (repo, st)
  | none =>
    let filePath := xrmFilePath dirname fileName
    match readRepo filePath with
    | .ok repo => .ok (repo, { st with repositories := mapSet st.repositories fileName repo })
    | .error e => .error ("Failed to load repository file: " ++ filePath ++ ". Error: " ++ e)

-- =============================================================================
-- PatternBasedLoginPage template-based facade actions
-- =============================================================================

/-- `PatternBasedLoginPage.enterUsername`: resolve the username-field template
once, then run the awaited browser chain (`waitFor visible` with a 10s
timeout, `clear`, `fill`) on `xpath=locator` — modelled by the outcome
function `act`.  A resolution error propagates; a browser-chain error is
caught and rethrown as an error naming the pattern used.  No second
resolution is attempted. -/
def enterUsername (s : ManagerState) (act : String → Except String Unit) :
    Except String ManagerState :=
  match buildFromTemplate s "loginPage.usernameField" [] with
  | .error e => .error e
  | .ok (locatorResult, s₁) =>
    match act ("xpath=" ++ locatorResult.locator) with
    | .ok _ => .ok s₁
    | .error _ =>
      .error ("Failed to enter username using pattern: " ++ locatorResult.patternUsed)

/-- `PatternBasedLoginPage.clickLoginButton`: same shape as `enterUsername`
for the login-button template (`waitFor visible`, `click`). -/
def clickLoginButton (s : ManagerState) (act : String → Except String Unit) :
    Except String ManagerState :=
  match buildFromTemplate s "loginPage.loginButton" [] with
  | .error e => .error e
  | .ok (locatorResult, s₁) =>
    match act ("xpath=" ++ locatorResult.locator) with
    | .ok _ => .ok s₁
    | .error _ =>
      .error ("Failed to click login button using pattern: " ++ locatorResult.patternUsed)

-- =============================================================================
-- Concrete repositories used by examples, witnesses and counterexamples
-- =============================================================================

/-- Empty metadata/validation filler for concrete repositories. -/
def emptyMeta : RepositoryMetadata :=
  { version := "1.0", description := "", lastUpdated := "", totalPatterns := 0,
    categories := [] }

/-- Empty validation filler for concrete repositories. -/
def emptyValidation : ValidationConfig :=
  { requiredPatterns := [], patternGroups := [] }

/-- The documented `loginPage.usernameField` template: primary
`basic.inputByName` with fixed `name`, fallback `basic.inputById`. -/
def tmplUsernameField : TemplateDefinition :=
  { pattern := "basic.inputByName",
    params := [("name", "username")],
    fallback := some { pattern := "basic.inputById", params := [("id", "username")] },
    suffix := none }

/-- A `loginPage.loginButton` template with no fallback and no suffix. -/
def tmplLoginButton : TemplateDefinition :=
  { pattern := "basic.buttonByText",
    params := [("text", "Submit")],
    fallback := none,
    suffix := none }

/-- A small concrete pattern repository mirroring the documented
`basic.inputByName` / `basic.inputById` patterns and the
`loginPage.usernameField` template with its fallback. -/
def demoRepo : PatternRepository :=
  { patterns :=
      [("basic",
        [("inputByName", "//input[@name=\x27{name}\x27]"),
         ("inputById", "//input[@id=\x27{id}\x27]"),
         ("buttonByText", "//button[contains(text(),\x27{text}\x27)]")])],
    staticElements := [],
    templates :=
      [("loginPage",
        [("usernameField", tmplUsernameField),
         ("loginButton", tmplLoginButton)])],
    complexPatterns := [],
    validation := emptyValidation,
    metadata := emptyMeta }

/-- Like `demoRepo` but with `basic.inputByName` deleted from the store:
the primary pattern of `loginPage.usernameField` no longer resolves. -/
def demoRepoNoPrimary : PatternRepository :=
  { demoRepo with
    patterns :=
      [("basic",
        [("inputById", "//input[@id=\x27{id}\x27]"),
         ("buttonByText", "//button[contains(text(),\x27{text}\x27)]")])] }

/-- A fresh manager state holding a given repository (cache empty, caching
enabled, as after `loadRepository` on a new instance). -/
def freshState (repo : PatternRepository) : ManagerState :=
  { repository := some repo, repositoryPath := "", cache := [], cacheEnabled := true }

/-- Like `demoRepo` but with `basic.buttonByText` deleted from the store: the
primary pattern of `loginPage.loginButton` (which has no fallback) no longer
resolves. -/
def demoRepoNoButton : PatternRepository :=
  { demoRepo with
    patterns :=
      [("basic",
        [("inputByName", "//input[@name=\x27{name}\x27]"),
         ("inputById", "//input[@id=\x27{id}\x27]")])] }

/-- A `loginPage.usernameField` template variant with no fixed parameters, so
the `name` placeholder stays unresolved when the caller passes none. -/
def tmplNoParams : TemplateDefinition :=
  { pattern := "basic.inputByName", params := [], fallback := none, suffix := none }

/-- `demoRepo` with `loginPage.usernameField` replaced by `tmplNoParams`. -/
def demoRepoNoParams : PatternRepository :=
  { demoRepo with
    templates := [("loginPage", [("usernameField", tmplNoParams)])] }

/-- A template whose `name` parameter is the nested reference to `other`, the
`other` parameter itself being fixed to a default overridable at call time. -/
def tmplNested : TemplateDefinition :=
  { pattern := "d.byA",
    params := [("other", "x"), ("name", "\x7bother\x7d")],
    fallback := none,
    suffix := none }

/-- Repository exercising nested parameter resolution (`page.el` resolves its
`name` through the runtime `other` value). -/
def nestedRepo : PatternRepository :=
  { patterns := [("d", [("byA", "//div[@a=\x27{name}\x27]")])],
    staticElements := [],
    templates := [("page", [("el", tmplNested)])],
    complexPatterns := [],
    validation := emptyValidation,
    metadata := emptyMeta }

/-- `tmplUsernameField` with a suffix appended to the generated locator. -/
def tmplSuffixed : TemplateDefinition :=
  { tmplUsernameField with suffix := some "[1]" }

/-- `demoRepo` with the suffixed username template. -/
def suffixRepo : PatternRepository :=
  { demoRepo with
    templates := [("loginPage", [("usernameField", tmplSuffixed)])] }

/-- `suffixRepo` with `basic.inputByName` deleted, forcing the fallback. -/
def suffixRepoNoPrimary : PatternRepository :=
  { suffixRepo with
    patterns :=
      [("basic",
        [("inputById", "//input[@id=\x27{id}\x27]"),
         ("buttonByText", "//button[contains(text(),\x27{text}\x27)]")])] }

/-- A browser-chain outcome for the facade model: the element is reachable
only through the fallback locator of `loginPage.usernameField`; every other
locator times out. -/
def fallbackOnlyAct : String → Except String Unit :=
  fun loc =>
    if loc = "xpath=//input[@id=\x27username\x27]" then .ok ()
    else .error "TimeoutError: element not visible within 10000ms"

/-- A file system for the `DynamicLocatorManager` load model: exactly one
pattern document exists. -/
def demoRead : String → Except String PatternRepository :=
  fun p => if p = "managers/../patterns.json" then .ok demoRepo else .error "ENOENT"

/-- A concrete XPath repository document for the `XPathRepositoryManager`. -/
def demoXRepo : XPathRepository :=
  { page := { url := "https://practicetestautomation.com/practice-test-login",
              title := "Test Login", loadTimeout := 30000 },
    elements :=
      [("usernameInput",
        { xpath := "//input[@name=\x27username\x27]",
          alternateXpath := some "//input[@id=\x27username\x27]",
          description := "Username input field",
          waitStrategy := WaitStrategy.visible })],
    xpathPatterns := [("inputByName", "//input[@name=\x27{name}\x27]")],
    errorMessages := [("invalid", "Your username is invalid!")],
    waitStrategies := [("default", "visible")] }

/-- A file system for the `XPathRepositoryManager` load model. -/
def demoReadX : String → Except String XPathRepository :=
  fun p =>
    if p = "managers/../locators/loginPage.json" then .ok demoXRepo
    else .error "ENOENT"

/-- The manager state of a fresh `DynamicLocatorManager` instance (private
constructor: no repository, empty cache, caching on). -/
def initManagerState : ManagerState :=
  { repository := none, repositoryPath := "", cache := [], cacheEnabled := true }

/-- `initManagerState` after `loadRepository("patterns")` against `demoRead`. -/
def loadedManagerState : ManagerState :=
  { repository := some demoRepo, repositoryPath := "managers/../patterns.json",
    cache := [], cacheEnabled := true }

example :
    (buildFromTemplate (freshState demoRepo) "loginPage.usernameField" []).map
      (fun p => (p.1.locator, p.1.fallbackUsed)) =
      .ok ("//input[@name=\x27username\x27]", false) := rfl

example :
    (buildFromTemplate (freshState demoRepoNoPrimary) "loginPage.usernameField" []).map
      (fun p => (p.1.locator, p.1.fallbackUsed)) =
      .ok ("//input[@id=\x27username\x27]", true) := rfl

example :
    buildFromTemplate (freshState demoRepo) "nonexistent.path" [] =
      .error "❌ Template not found: nonexistent.path" := rfl

-- =============================================================================
-- Association-list lemmas
-- =============================================================================

theorem lookupKV_append_of_some {β : Type} {xs : List (String × β)} {k : String}
    {v : β} (ys : List (String × β)) (h : lookupKV xs k = some v) :
    lookupKV (xs ++ ys) k = some v := by
  induction xs with
  | nil => simp [lookupKV] at h
  | cons kv rest ih =>
    obtain ⟨k₀, v₀⟩ := kv
    by_cases hk : k = k₀
    · simp [lookupKV, hk] at h ⊢
      exact h
    · simp [lookupKV, hk] at h ⊢
      exact ih h

theorem lookupKV_append_of_none {β : Type} {xs : List (String × β)} {k : String}
    (ys : List (String × β)) (h : lookupKV xs k = none) :
    lookupKV (xs ++ ys) k = lookupKV ys k := by
  induction xs with
  | nil => simp [lookupKV]
  | cons kv rest ih =>
    obtain ⟨k₀, v₀⟩ := kv
    by_cases hk : k = k₀
    · simp [lookupKV, hk] at h
    · simp [lookupKV, hk] at h ⊢
      exact ih h

theorem lookupKV_map_value {β γ : Type} (f : String → β → γ)
    (xs : List (String × β)) (k : String) :
    lookupKV (xs.map (fun kv => (kv.1, f kv.1 kv.2))) k = (lookupKV xs k).map (f k) := by
  induction xs with
  | nil => simp [lookupKV]
  | cons kv rest ih =>
    obtain ⟨k₀, v₀⟩ := kv
    by_cases h : k = k₀ <;> simp [lookupKV, h, ih]

theorem lookupKV_filter {β : Type} (p : String × β → Bool)
    (xs : List (String × β)) (k : String) (hp : ∀ v, p (k, v) = true) :
    lookupKV (xs.filter p) k = lookupKV xs k := by
  induction xs with
  | nil => simp
  | cons kv rest ih =>
    obtain ⟨k₀, v₀⟩ := kv
    by_cases hk : k = k₀
    · subst hk
      simp [List.filter_cons, hp v₀, lookupKV]
    · cases hpkv : p (k₀, v₀) <;> simp [List.filter_cons, hpkv, lookupKV, hk, ih]

/-- Runtime precedence of the spread merge: a key of `b` keeps its (first)
`b` value in `\x7b...a, ...b\x7d`. -/
theorem lookupKV_jsMerge_right {β : Type} (a b : List (String × β)) (k : String)
    (v : β) (h : lookupKV b k = some v) : lookupKV (jsMerge a b) k = some v := by
  unfold jsMerge
  cases ha : lookupKV a k with
  | some u =>
    have hmap : lookupKV (a.map (fun kv => (kv.1, jsMergeValue b kv.1 kv.2))) k =
        some (jsMergeValue b k u) := by
      rw [lookupKV_map_value (jsMergeValue b) a k, ha]
      rfl
    rw [lookupKV_append_of_some _ hmap]
    simp [jsMergeValue, h]
  | none =>
    have hmap : lookupKV (a.map (fun kv => (kv.1, jsMergeValue b kv.1 kv.2))) k =
        none := by
      rw [lookupKV_map_value (jsMergeValue b) a k, ha]
      rfl
    rw [lookupKV_append_of_none _ hmap, lookupKV_filter]
    · exact h
    · intro v'
      simp [ha]

/-- Nested-parameter resolution rewrites values entrywise: looking a key up in
the resolved map yields `nestedValue` of the original value. -/
theorem lookupKV_resolveNested (tp rp : Params) (k : String) (v : String)
    (h : lookupKV tp k = some v) :
    lookupKV (resolveNestedParameters tp rp) k = some (nestedValue rp v) := by
  unfold resolveNestedParameters
  rw [lookupKV_map_value (fun _ v => nestedValue rp v), h]
  rfl

theorem mapSet_of_none {β : Type} (m : List (String × β)) (k : String) (v : β)
    (h : lookupKV m k = none) : mapSet m k v = m ++ [(k, v)] := by
  simp [mapSet, h]

theorem lookupKV_mapSet_of_none {β : Type} (m : List (String × β)) (k k₁ : String)
    (v : β) (h : lookupKV m k = none) :
    lookupKV (mapSet m k v) k₁ = if k₁ = k then some v else lookupKV m k₁ := by
  rw [mapSet_of_none m k v h]
  by_cases hk : k₁ = k
  · subst hk
    rw [lookupKV_append_of_none _ h]
    simp [lookupKV]
  · cases hm : lookupKV m k₁ with
    | some w =>
      rw [lookupKV_append_of_some _ hm]
      simp [hk]
    | none =>
      rw [lookupKV_append_of_none _ hm]
      simp [lookupKV, hk]

-- =============================================================================
-- buildLocator characterization lemmas
-- =============================================================================

theorem buildLocator_cacheHit {s : ManagerState} {p : String} {prm : Params}
    {repo : PatternRepository} {L : String} (hr : s.repository = some repo)
    (hc : cacheServe s (cacheKey p prm) = some L) :
    buildLocator s p prm =
      .ok ({ locator := L, patternUsed := p, parametersApplied := prm,
             fallbackUsed := false, description := some "Retrieved from cache" }, s) := by
  simp [buildLocator, hr, hc]

theorem buildLocator_gen {s : ManagerState} {p : String} {prm : Params}
    {repo : PatternRepository} {pat : String} (hr : s.repository = some repo)
    (hc : cacheServe s (cacheKey p prm) = none)
    (hp : getPattern (some repo) p = .ok pat) :
    buildLocator s p prm =
      .ok ({ locator := replaceParameters pat prm, patternUsed := p,
             parametersApplied := prm, fallbackUsed := false,
             description := some ("Generated from pattern: " ++ p) },
           if s.cacheEnabled then
             { s with cache := mapSet s.cache (cacheKey p prm) (replaceParameters pat prm) }
           else s) := by
  simp [buildLocator, hr, hc, hp]

theorem buildLocator_err {s : ManagerState} {p : String} {prm : Params}
    {repo : PatternRepository} {e : String} (hr : s.repository = some repo)
    (hc : cacheServe s (cacheKey p prm) = none)
    (hp : getPattern (some repo) p = .error e) :
    buildLocator s p prm = .error e := by
  simp [buildLocator, hr, hc, hp]

theorem buildLocator_ok_inv {s : ManagerState} {p : String} {prm : Params}
    {r : LocatorBuildResult} {s₁ : ManagerState}
    (h : buildLocator s p prm = .ok (r, s₁)) :
    ∃ repo, s.repository = some repo ∧ r.patternUsed = p ∧
      r.parametersApplied = prm ∧ r.fallbackUsed = false ∧
      ((cacheServe s (cacheKey p prm) = some r.locator ∧ s₁ = s) ∨
       (cacheServe s (cacheKey p prm) = none ∧
        (∃ pat, getPattern (some repo) p = .ok pat ∧
          r.locator = replaceParameters pat prm ∧
          s₁ = if s.cacheEnabled then
                 { s with cache := mapSet s.cache (cacheKey p prm) r.locator }
               else s))) := by
  unfold buildLocator at h
  cases hr : s.repository with
  | none => rw [hr] at h; exact absurd h (by simp)
  | some repo =>
    rw [hr] at h
    refine ⟨repo, rfl, ?_⟩
    cases hc : cacheServe s (cacheKey p prm) with
    | some L =>
      rw [hc] at h
      injection h with hpair
      injection hpair with h₁ h₂
      subst h₁
      subst h₂
      exact ⟨rfl, rfl, rfl, Or.inl ⟨rfl, rfl⟩⟩
    | none =>
      rw [hc] at h
      cases hp : getPattern (some repo) p with
      | error e => rw [hp] at h; exact absurd h (by simp)
      | ok pat =>
        rw [hp] at h
        injection h with hpair
        injection hpair with h₁ h₂
        subst h₁
        subst h₂
        exact ⟨rfl, rfl, rfl, Or.inr ⟨rfl, pat, rfl, rfl, rfl⟩⟩

theorem buildLocator_err_inv {s : ManagerState} {p : String} {prm : Params}
    {e : String} (h : buildLocator s p prm = .error e) :
    s.repository = none ∨
      (∃ repo, s.repository = some repo ∧ cacheServe s (cacheKey p prm) = none ∧
        getPattern (some repo) p = .error e) := by
  unfold buildLocator at h
  cases hr : s.repository with
  | none => exact Or.inl rfl
  | some repo =>
    rw [hr] at h
    refine Or.inr ⟨repo, rfl, ?_⟩
    cases hc : cacheServe s (cacheKey p prm) with
    | some L => rw [hc] at h; exact absurd h (by simp)
    | none =>
      rw [hc] at h
      cases hp : getPattern (some repo) p with
      | error e₁ =>
        rw [hp] at h
        simp only [Except.error.injEq] at h
        exact ⟨rfl, congrArg Except.error h⟩
      | ok pat => rw [hp] at h; exact absurd h (by simp)

/-- A successful `buildLocator` changes at most the cache. -/
theorem buildLocator_ok_fields {s : ManagerState} {p : String} {prm : Params}
    {r : LocatorBuildResult} {s₁ : ManagerState}
    (h : buildLocator s p prm = .ok (r, s₁)) :
    s₁.repository = s.repository ∧ s₁.cacheEnabled = s.cacheEnabled := by
  obtain ⟨repo, _, _, _, _, hcases⟩ := buildLocator_ok_inv h
  rcases hcases with ⟨_, hst⟩ | ⟨_, pat, _, _, hst⟩
  · rw [hst]; exact ⟨rfl, rfl⟩
  · rw [hst]
    by_cases hen : s.cacheEnabled = true <;> simp [hen]

/-- After one `buildLocator` call fails and another (from the same state)
succeeds, re-running the failing call on the post-state of the successful call
either fails with the same error, or — when the two cache keys coincide — is
served the locator freshly cached by the other call. -/
theorem buildLocator_after_other {s : ManagerState} {p q : String}
    {prm qprm : Params} {e : String} {fr : LocatorBuildResult} {s₁ : ManagerState}
    (hP : buildLocator s p prm = .error e)
    (hQ : buildLocator s q qprm = .ok (fr, s₁)) :
    buildLocator s₁ p prm = .error e ∨
      (∃ r₁, buildLocator s₁ p prm = .ok (r₁, s₁) ∧ r₁.locator = fr.locator) := by
  obtain ⟨repo, hr, _, _, _, hq⟩ := buildLocator_ok_inv hQ
  rcases buildLocator_err_inv hP with hnone | ⟨repo₁, hr₁, hcP, hgpP⟩
  · rw [hnone] at hr; exact absurd hr (by simp)
  · have hrepo : repo₁ = repo := by
      rw [hr] at hr₁
      exact (Option.some.inj hr₁).symm
    rw [hrepo] at hgpP
    rcases hq with ⟨_, hst⟩ | ⟨hcQ, patQ, hgpQ, hlocQ, hst⟩
    · subst hst
      exact Or.inl hP
    · by_cases hen : s.cacheEnabled = true
      · have hs₁ : s₁ = { s with cache := mapSet s.cache (cacheKey q qprm) fr.locator } := by
          rw [hst, if_pos hen]
        have hlkP : lookupKV s.cache (cacheKey p prm) = none := by
          have := hcP
          unfold cacheServe at this
          rwa [if_pos hen] at this
        have hlkQ : lookupKV s.cache (cacheKey q qprm) = none := by
          have := hcQ
          unfold cacheServe at this
          rwa [if_pos hen] at this
        have hrepo₁ : s₁.repository = some repo := by rw [hs₁]; exact hr
        by_cases hkey : cacheKey p prm = cacheKey q qprm
        · have hserve : cacheServe s₁ (cacheKey p prm) = some fr.locator := by
            rw [hs₁]
            unfold cacheServe
            rw [if_pos hen,
              lookupKV_mapSet_of_none s.cache (cacheKey q qprm) (cacheKey p prm) fr.locator hlkQ,
              if_pos hkey]
          exact Or.inr ⟨_, buildLocator_cacheHit hrepo₁ hserve, rfl⟩
        · have hserve : cacheServe s₁ (cacheKey p prm) = none := by
            rw [hs₁]
            unfold cacheServe
            rw [if_pos hen,
              lookupKV_mapSet_of_none s.cache (cacheKey q qprm) (cacheKey p prm) fr.locator hlkQ,
              if_neg hkey]
            exact hlkP
          exact Or.inl (buildLocator_err hrepo₁ hserve hgpP)
      · have hs₁ : s₁ = s := by rw [hst, if_neg hen]
        subst hs₁
        exact Or.inl hP

/-- Re-running a successful `buildLocator` on its own post-state yields the
same locator string and leaves the state unchanged (either the computation is
pure, or the freshly cached entry is served). -/
theorem buildLocator_stable {s : ManagerState} {p : String} {prm : Params}
    {r : LocatorBuildResult} {s₁ : ManagerState}
    (h : buildLocator s p prm = .ok (r, s₁)) :
    ∃ r₁, buildLocator s₁ p prm = .ok (r₁, s₁) ∧ r₁.locator = r.locator := by
  obtain ⟨repo, hr, _, _, _, hcases⟩ := buildLocator_ok_inv h
  rcases hcases with ⟨_, hst⟩ | ⟨hc, pat, hgp, hloc, hst⟩
  · subst hst
    exact ⟨r, h, rfl⟩
  · by_cases hen : s.cacheEnabled
    · have hlk : lookupKV s.cache (cacheKey p prm) = none := by
        have := hc
        unfold cacheServe at this
        rwa [if_pos hen] at this
      have hs₁ : s₁ = { s with cache := mapSet s.cache (cacheKey p prm) r.locator } := by
        rw [hst, if_pos hen]
      have hserve : cacheServe s₁ (cacheKey p prm) = some r.locator := by
        rw [hs₁]
        unfold cacheServe
        rw [if_pos hen,
          lookupKV_mapSet_of_none s.cache (cacheKey p prm) (cacheKey p prm) r.locator hlk]
        simp
      have hrepo₁ : s₁.repository = some repo := by rw [hs₁]; exact hr
      exact ⟨_, buildLocator_cacheHit hrepo₁ hserve, rfl⟩
    · have hs₁ : s₁ = s := by
        rw [hst, if_neg hen]
      subst hs₁
      exact ⟨r, h, rfl⟩

/-- An empty cache never serves. -/
theorem cacheServe_of_empty {s : ManagerState} (h : s.cache = []) (key : String) :
    cacheServe s key = none := by
  unfold cacheServe
  rw [h]
  by_cases hen : s.cacheEnabled = true <;> simp [hen, lookupKV]

-- =============================================================================
-- buildFromTemplate characterization lemmas
-- =============================================================================

theorem buildFromTemplate_templateErr {s : ManagerState} {tp : String} {rp : Params}
    {repo : PatternRepository} {e : String} (hr : s.repository = some repo)
    (ht : getTemplate (some repo) tp = .error e) :
    buildFromTemplate s tp rp = .error e := by
  simp [buildFromTemplate, hr, ht]

theorem buildFromTemplate_primary {s : ManagerState} {tp : String} {rp : Params}
    {repo : PatternRepository} {t : TemplateDefinition} {pat : String}
    (hr : s.repository = some repo) (ht : getTemplate (some repo) tp = .ok t)
    (hp : getPattern (some repo) t.pattern = .ok pat)
    (hc : cacheServe s (cacheKey t.pattern (resolvedParameters t rp)) = none) :
    buildFromTemplate s tp rp =
      .ok ({ locator := addSuffix t (replaceParameters pat (resolvedParameters t rp)),
             patternUsed := t.pattern,
             parametersApplied := resolvedParameters t rp,
             fallbackUsed := false,
             description := some ("Template: " ++ tp) },
           if s.cacheEnabled then { s with cache := mapSet s.cache (cacheKey t.pattern (resolvedParameters t rp)) (replaceParameters pat (resolvedParameters t rp)) } else s) := by
  simp [buildFromTemplate, hr, ht, buildLocator_gen hr hc hp]

theorem buildFromTemplate_fallback {s : ManagerState} {tp : String} {rp : Params}
    {repo : PatternRepository} {t : TemplateDefinition} {fb : FallbackDefinition}
    {eP fbpat : String}
    (hr : s.repository = some repo) (ht : getTemplate (some repo) tp = .ok t)
    (hpe : getPattern (some repo) t.pattern = .error eP)
    (hcp : cacheServe s (cacheKey t.pattern (resolvedParameters t rp)) = none)
    (hfb : t.fallback = some fb)
    (hfp : getPattern (some repo) fb.pattern = .ok fbpat)
    (hcf : cacheServe s (cacheKey fb.pattern (resolvedFallbackParameters fb rp)) = none) :
    buildFromTemplate s tp rp =
      .ok ({ locator := addSuffix t (replaceParameters fbpat (resolvedFallbackParameters fb rp)),
             patternUsed := fb.pattern,
             parametersApplied := resolvedFallbackParameters fb rp,
             fallbackUsed := true,
             description := some ("Template: " ++ tp ++ " (fallback used)") },
           if s.cacheEnabled then { s with cache := mapSet s.cache (cacheKey fb.pattern (resolvedFallbackParameters fb rp)) (replaceParameters fbpat (resolvedFallbackParameters fb rp)) } else s) := by
  simp [buildFromTemplate, hr, ht, buildLocator_err hr hcp hpe, hfb,
    buildLocator_gen hr hcf hfp]

theorem buildFromTemplate_noFallback {s : ManagerState} {tp : String} {rp : Params}
    {repo : PatternRepository} {t : TemplateDefinition} {eP : String}
    (hr : s.repository = some repo) (ht : getTemplate (some repo) tp = .ok t)
    (hpe : getPattern (some repo) t.pattern = .error eP)
    (hcp : cacheServe s (cacheKey t.pattern (resolvedParameters t rp)) = none)
    (hfb : t.fallback = none) :
    buildFromTemplate s tp rp = .error eP := by
  simp [buildFromTemplate, hr, ht, buildLocator_err hr hcp hpe, hfb]

theorem buildFromTemplate_of_buildLocator_ok {s : ManagerState} {tp : String}
    {rp : Params} {repo : PatternRepository} {t : TemplateDefinition}
    {pres : LocatorBuildResult} {s₁ : ManagerState}
    (hr : s.repository = some repo) (ht : getTemplate (some repo) tp = .ok t)
    (hbl : buildLocator s t.pattern (resolvedParameters t rp) = .ok (pres, s₁)) :
    buildFromTemplate s tp rp =
      .ok ({ locator := addSuffix t pres.locator,
             patternUsed := t.pattern,
             parametersApplied := resolvedParameters t rp,
             fallbackUsed := false,
             description := some ("Template: " ++ tp) }, s₁) := by
  simp [buildFromTemplate, hr, ht, hbl]

theorem buildFromTemplate_of_buildLocator_fallback {s : ManagerState} {tp : String}
    {rp : Params} {repo : PatternRepository} {t : TemplateDefinition}
    {fb : FallbackDefinition} {e : String} {fres : LocatorBuildResult}
    {s₁ : ManagerState}
    (hr : s.repository = some repo) (ht : getTemplate (some repo) tp = .ok t)
    (hble : buildLocator s t.pattern (resolvedParameters t rp) = .error e)
    (hfb : t.fallback = some fb)
    (hblf : buildLocator s fb.pattern (resolvedFallbackParameters fb rp) = .ok (fres, s₁)) :
    buildFromTemplate s tp rp =
      .ok ({ locator := addSuffix t fres.locator,
             patternUsed := fb.pattern,
             parametersApplied := resolvedFallbackParameters fb rp,
             fallbackUsed := true,
             description := some ("Template: " ++ tp ++ " (fallback used)") }, s₁) := by
  simp [buildFromTemplate, hr, ht, hble, hfb, hblf]

theorem buildFromTemplate_noFallbackRaw {s : ManagerState} {tp : String}
    {rp : Params} {repo : PatternRepository} {t : TemplateDefinition} {e : String}
    (hr : s.repository = some repo) (ht : getTemplate (some repo) tp = .ok t)
    (hble : buildLocator s t.pattern (resolvedParameters t rp) = .error e)
    (hfb : t.fallback = none) :
    buildFromTemplate s tp rp = .error e := by
  simp [buildFromTemplate, hr, ht, hble, hfb]

theorem buildFromTemplate_fallbackErrRaw {s : ManagerState} {tp : String}
    {rp : Params} {repo : PatternRepository} {t : TemplateDefinition}
    {fb : FallbackDefinition} {e e₂ : String}
    (hr : s.repository = some repo) (ht : getTemplate (some repo) tp = .ok t)
    (hble : buildLocator s t.pattern (resolvedParameters t rp) = .error e)
    (hfb : t.fallback = some fb)
    (hblf : buildLocator s fb.pattern (resolvedFallbackParameters fb rp) = .error e₂) :
    buildFromTemplate s tp rp = .error e₂ := by
  simp [buildFromTemplate, hr, ht, hble, hfb, hblf]

-- =============================================================================
-- Claim theorems
-- =============================================================================

/-- C1: Resolution is deterministic — two successive `buildFromTemplate` calls
with the same template path and the same runtime parameters, the second on the
state left by the first (so the Pattern Store is unchanged in between), return
the same selector string, whether the second call is served by the cache or
recomputed. -/
theorem C1_resolve_deterministic (s : ManagerState) (tp : String) (rp : Params)
    (r₁ r₂ : LocatorBuildResult) (s₁ s₂ : ManagerState)
    (h₁ : buildFromTemplate s tp rp = .ok (r₁, s₁))
    (h₂ : buildFromTemplate s₁ tp rp = .ok (r₂, s₂)) :
    r₁.locator = r₂.locator := by
  cases hr : s.repository with
  | none =>
    rw [buildFromTemplate, hr] at h₁
    exact absurd h₁ (by simp)
  | some repo =>
    cases ht : getTemplate (some repo) tp with
    | error e =>
      rw [buildFromTemplate_templateErr hr ht] at h₁
      exact absurd h₁ (by simp)
    | ok t =>
      cases hbl : buildLocator s t.pattern (resolvedParameters t rp) with
      | ok pr =>
        obtain ⟨pres, sMid⟩ := pr
        rw [buildFromTemplate_of_buildLocator_ok hr ht hbl] at h₁
        injection h₁ with hpair
        injection hpair with hrec hstate
        subst hrec
        subst hstate
        have hrepoMid : sMid.repository = some repo := by
          rw [(buildLocator_ok_fields hbl).1]
          exact hr
        obtain ⟨pr₁, hbl₁, hloceq⟩ := buildLocator_stable hbl
        rw [buildFromTemplate_of_buildLocator_ok hrepoMid ht hbl₁] at h₂
        injection h₂ with hpair₂
        injection hpair₂ with hrec₂ hstate₂
        rw [← hrec₂]
        exact congrArg (addSuffix t) hloceq.symm
      | error e =>
        cases hfb : t.fallback with
        | none =>
          rw [buildFromTemplate_noFallbackRaw hr ht hbl hfb] at h₁
          exact absurd h₁ (by simp)
        | some fb =>
          cases hblf : buildLocator s fb.pattern (resolvedFallbackParameters fb rp) with
          | error e₂ =>
            rw [buildFromTemplate_fallbackErrRaw hr ht hbl hfb hblf] at h₁
            exact absurd h₁ (by simp)
          | ok frp =>
            obtain ⟨fres, sMid⟩ := frp
            rw [buildFromTemplate_of_buildLocator_fallback hr ht hbl hfb hblf] at h₁
            injection h₁ with hpair
            injection hpair with hrec hstate
            subst hrec
            subst hstate
            have hrepoMid : sMid.repository = some repo := by
              rw [(buildLocator_ok_fields hblf).1]
              exact hr
            rcases buildLocator_after_other hbl hblf with hPerr | ⟨r₁P, hPok, hlocP⟩
            · obtain ⟨fr₁, hblf₁, hloceqF⟩ := buildLocator_stable hblf
              rw [buildFromTemplate_of_buildLocator_fallback hrepoMid ht hPerr hfb hblf₁] at h₂
              injection h₂ with hpair₂
              injection hpair₂ with hrec₂ hstate₂
              rw [← hrec₂]
              exact congrArg (addSuffix t) hloceqF.symm
            · rw [buildFromTemplate_of_buildLocator_ok hrepoMid ht hPok] at h₂
              injection h₂ with hpair₂
              injection hpair₂ with hrec₂ hstate₂
              rw [← hrec₂]
              exact congrArg (addSuffix t) hlocP.symm

/-- C1 witness: two successive resolutions of the documented username-field
template return the same selector. -/
theorem C1_resolve_deterministic_witness :
    ∃ (r₁ r₂ : LocatorBuildResult) (s₁ s₂ : ManagerState),
      buildFromTemplate (freshState demoRepo) "loginPage.usernameField" [] = .ok (r₁, s₁) ∧
      buildFromTemplate s₁ "loginPage.usernameField" [] = .ok (r₂, s₂) ∧
      r₁.locator = r₂.locator := by
  refine ⟨_, _, _, _, rfl, rfl, ?_⟩
  exact C1_resolve_deterministic (freshState demoRepo) "loginPage.usernameField" []
    _ _ _ _ rfl rfl

/-- C2: Fallback correctness — when the primary pattern reference of a template
is absent from the Pattern Store (and not shadowed by a cache entry: the cache
is empty) and a fallback is defined whose pattern resolves, `buildFromTemplate`
does not raise; it returns the selector built from the fallback pattern with
the fallback parameters merged with the runtime parameters, and
`fallbackUsed = true`. -/
theorem C2_fallback_correctness (s : ManagerState) (tp : String) (rp : Params)
    {repo : PatternRepository} {t : TemplateDefinition} {fb : FallbackDefinition}
    {eP fbpat : String}
    (hr : s.repository = some repo) (hcache : s.cache = [])
    (ht : getTemplate (some repo) tp = .ok t)
    (hfb : t.fallback = some fb)
    (hpe : getPattern (some repo) t.pattern = .error eP)
    (hfp : getPattern (some repo) fb.pattern = .ok fbpat) :
    ∃ s₁, buildFromTemplate s tp rp =
      .ok ({ locator := addSuffix t (replaceParameters fbpat (resolvedFallbackParameters fb rp)),
             patternUsed := fb.pattern,
             parametersApplied := resolvedFallbackParameters fb rp,
             fallbackUsed := true,
             description := some ("Template: " ++ tp ++ " (fallback used)") }, s₁) :=
  ⟨_, buildFromTemplate_fallback hr ht hpe (cacheServe_of_empty hcache _) hfb hfp
        (cacheServe_of_empty hcache _)⟩

/-- C2 witness: with `basic.inputByName` deleted from the store, the
username-field template resolves through its fallback to the id selector. -/
theorem C2_fallback_correctness_witness :
    ∃ s₁, buildFromTemplate (freshState demoRepoNoPrimary) "loginPage.usernameField" [] =
      .ok ({ locator := "//input[@id=\x27username\x27]",
             patternUsed := "basic.inputById",
             parametersApplied := [("id", "username")],
             fallbackUsed := true,
             description := some "Template: loginPage.usernameField (fallback used)" }, s₁) :=
  C2_fallback_correctness (freshState demoRepoNoPrimary) "loginPage.usernameField" []
    rfl rfl rfl rfl rfl rfl

/-- C3: Parameter precedence — when a key occurs both in the fixed
template params and in the runtime params, the parameters applied to the
resolved selector carry the runtime value (for plain values that are not
nested `\x7bother\x7d` references), and the selector is the substitution of
those parameters into the primary pattern. -/
theorem C3_parameter_precedence (s : ManagerState) (tp : String) (rp : Params)
    (k v : String) {repo : PatternRepository} {t : TemplateDefinition} {pat : String}
    (hr : s.repository = some repo) (hcache : s.cache = [])
    (ht : getTemplate (some repo) tp = .ok t)
    (hp : getPattern (some repo) t.pattern = .ok pat)
    (hk : lookupKV rp k = some v) (hbr : bracedRef v = false) :
    ∃ s₁ r, buildFromTemplate s tp rp = .ok (r, s₁) ∧
      lookupKV r.parametersApplied k = some v ∧
      r.locator = addSuffix t (replaceParameters pat (resolvedParameters t rp)) := by
  refine ⟨_, _, buildFromTemplate_primary hr ht hp (cacheServe_of_empty hcache _), ?_, rfl⟩
  show lookupKV (resolvedParameters t rp) k = some v
  unfold resolvedParameters
  have hm : lookupKV (jsMerge t.params rp) k = some v :=
    lookupKV_jsMerge_right t.params rp k v hk
  rw [lookupKV_resolveNested _ _ _ _ hm]
  simp [nestedValue, hbr]

/-- C3 witness: fixed `name = username` overridden by runtime `name = b`
yields the selector for `b`. -/
theorem C3_parameter_precedence_witness :
    (∃ s₁ r,
       buildFromTemplate (freshState demoRepo) "loginPage.usernameField"
         [("name", "b")] = .ok (r, s₁) ∧
       lookupKV r.parametersApplied "name" = some "b" ∧
       r.locator = addSuffix tmplUsernameField
         (replaceParameters "//input[@name=\x27{name}\x27]"
           (resolvedParameters tmplUsernameField [("name", "b")]))) ∧
    addSuffix tmplUsernameField
      (replaceParameters "//input[@name=\x27{name}\x27]"
        (resolvedParameters tmplUsernameField [("name", "b")])) =
      "//input[@name=\x27b\x27]" :=
  ⟨C3_parameter_precedence (freshState demoRepo) "loginPage.usernameField"
     [("name", "b")] "name" "b" rfl rfl rfl rfl rfl rfl, rfl⟩

/-- C5: NotFound without fallback — a template defining no fallback whose
primary pattern is absent from the store (cache empty, so nothing shadows
the lookup) makes `buildFromTemplate` rethrow the original not-found error;
it never returns a result, in particular never an empty selector. -/
theorem C5_notFound_without_fallback (s : ManagerState) (tp : String) (rp : Params)
    {repo : PatternRepository} {t : TemplateDefinition} {eP : String}
    (hr : s.repository = some repo) (hcache : s.cache = [])
    (ht : getTemplate (some repo) tp = .ok t)
    (hfb : t.fallback = none)
    (hpe : getPattern (some repo) t.pattern = .error eP) :
    buildFromTemplate s tp rp = .error eP :=
  buildFromTemplate_noFallback hr ht hpe (cacheServe_of_empty hcache _) hfb

/-- C5 witness: with `basic.buttonByText` deleted, the fallback-less
login-button template raises the original pattern-not-found error. -/
theorem C5_notFound_without_fallback_witness :
    buildFromTemplate (freshState demoRepoNoButton) "loginPage.loginButton" [] =
      .error "❌ Pattern not found: basic.buttonByText" :=
  C5_notFound_without_fallback (freshState demoRepoNoButton) "loginPage.loginButton" []
    rfl rfl rfl rfl rfl

/-- C6: NotFound names the offending path — when a `category.name` path is
absent from the template table, `buildFromTemplate` fails with an error whose
message contains that path (it is the suffix of the fixed not-found prefix). -/
theorem C6_notFound_names_path (s : ManagerState) (tp : String) (rp : Params)
    (c n : String) {repo : PatternRepository}
    (hr : s.repository = some repo) (hsplit : splitOnDot tp = [c, n])
    (habs : (lookupKV repo.templates c).bind (fun g => lookupKV g n) = none) :
    buildFromTemplate s tp rp = .error ("❌ Template not found: " ++ tp) := by
  have hT : getTemplate (some repo) tp = .error ("❌ Template not found: " ++ tp) := by
    simp only [getTemplate, hsplit]
    cases hc : lookupKV repo.templates c with
    | none => rfl
    | some g =>
      rw [hc] at habs
      simp at habs
      simp [habs]
  exact buildFromTemplate_templateErr hr hT

/-- C6 witness: the documented `resolve("nonexistent.path")` scenario. -/
theorem C6_notFound_names_path_witness :
    buildFromTemplate (freshState demoRepo) "nonexistent.path" [] =
      .error ("❌ Template not found: " ++ "nonexistent.path") :=
  C6_notFound_names_path (freshState demoRepo) "nonexistent.path" []
    "nonexistent" "path" rfl rfl rfl

/-- C7: Unresolved placeholders are non-fatal — when substitution into an
existing primary pattern leaves placeholders (the condition of the console
warning in `replaceParameters`), `buildFromTemplate` still succeeds with the
best-effort selector (the literal placeholder still in it) and
`fallbackUsed = false`; a missing parameter alone never triggers the
fallback. -/
theorem C7_unresolved_placeholder_nonfatal (s : ManagerState) (tp : String)
    (rp : Params) {repo : PatternRepository} {t : TemplateDefinition} {pat : String}
    (hr : s.repository = some repo) (hcache : s.cache = [])
    (ht : getTemplate (some repo) tp = .ok t)
    (hp : getPattern (some repo) t.pattern = .ok pat)
    (_hwarn : remainingPlaceholders (replaceParameters pat (resolvedParameters t rp)) ≠ []) :
    ∃ s₁, buildFromTemplate s tp rp =
      .ok ({ locator := addSuffix t (replaceParameters pat (resolvedParameters t rp)),
             patternUsed := t.pattern,
             parametersApplied := resolvedParameters t rp,
             fallbackUsed := false,
             description := some ("Template: " ++ tp) }, s₁) :=
  ⟨_, buildFromTemplate_primary hr ht hp (cacheServe_of_empty hcache _)⟩

/-- C7 witness: a username-field template with no fixed parameters leaves
`\x7bname\x7d` unresolved, yet resolution succeeds on the primary pattern. -/
theorem C7_unresolved_placeholder_nonfatal_witness :
    remainingPlaceholders "//input[@name=\x27{name}\x27]" = ["\x7bname\x7d"] ∧
    (∃ s₁, buildFromTemplate (freshState demoRepoNoParams) "loginPage.usernameField" [] =
      .ok ({ locator := "//input[@name=\x27{name}\x27]",
             patternUsed := "basic.inputByName",
             parametersApplied := [],
             fallbackUsed := false,
             description := some "Template: loginPage.usernameField" }, s₁)) :=
  ⟨rfl, C7_unresolved_placeholder_nonfatal (freshState demoRepoNoParams)
     "loginPage.usernameField" [] rfl rfl rfl rfl (by decide)⟩

/-- C8 counterexample: with runtime parameters `\x7bother: ""\x7d` the key
`other` is present in the runtime map, yet the nested reference
`"\x7bother\x7d"` is left literal (JavaScript truthiness: the empty string is
falsy), and the resolved selector still contains the literal `\x7bother\x7d`
rather than the caller-supplied value. -/
theorem C8_nested_resolution_counterexample :
    lookupKV [("other", "")] "other" = some "" ∧
    resolveNestedParameters [("name", "\x7bother\x7d")] [("other", "")] =
      [("name", "\x7bother\x7d")] ∧
    (buildFromTemplate (freshState nestedRepo) "page.el" [("other", "")]).map
      (fun p => p.1.locator) = .ok "//div[@a=\x27\x7bother\x7d\x27]" :=
  ⟨rfl, rfl, rfl⟩

/-- C8 (amended): a template parameter whose entire value is the placeholder
reference `\x7bother\x7d` is replaced by `runtimeParams[other]` before
substitution whenever `other` is present in `runtimeParams` with a non-empty
value (JavaScript truthiness: an empty-string runtime value leaves the
literal). -/
theorem C8_nested_resolution (tparams rp : Params) (k v other w : String)
    (hk : lookupKV tparams k = some v) (hbr : bracedRef v = true)
    (hother : nestedKeyOf v = other) (hw : lookupKV rp other = some w)
    (hne : w ≠ "") :
    lookupKV (resolveNestedParameters tparams rp) k = some w := by
  rw [lookupKV_resolveNested tparams rp k v hk]
  simp [nestedValue, hbr, hother, hw, hne]

/-- C8 witness: `name = "\x7bgroup\x7d"` with runtime `group = "G"` resolves
to `G`, end to end into the selector. -/
theorem C8_nested_resolution_witness :
    lookupKV (resolveNestedParameters [("name", "\x7bgroup\x7d")] [("group", "G")])
      "name" = some "G" ∧
    (buildFromTemplate (freshState nestedRepo) "page.el" [("other", "G")]).map
      (fun p => p.1.locator) = .ok "//div[@a=\x27G\x27]" :=
  ⟨C8_nested_resolution [("name", "\x7bgroup\x7d")] [("group", "G")]
     "name" "\x7bgroup\x7d" "group" "G" rfl rfl rfl rfl (by decide), rfl⟩

/-- `addSuffix` always equals appending the suffix (or nothing): appending the
empty string is a no-op, so the JavaScript truthiness guard does not change
the value. -/
theorem addSuffix_eq (t : TemplateDefinition) (loc : String) :
    addSuffix t loc = loc ++ t.suffix.getD "" := by
  unfold addSuffix jsTruthy
  cases hs : t.suffix with
  | none => simp [String.append_empty]
  | some suf =>
    by_cases h : suf = ""
    · subst h
      simp [String.append_empty]
    · simp [h]

/-- C9: Idempotent load — for a well-formed source (first load succeeds),
loading the same file name again leaves both managers in the same state and
does not raise: `DynamicLocatorManager.loadRepository` re-reads and re-assigns
the identical repository, and `XPathRepositoryManager.loadRepository` returns
its memoized copy. -/
theorem C9_idempotent_load (s : ManagerState) (fileName dirname : String)
    (readRepo : String → Except String PatternRepository) (s₁ : ManagerState)
    (st : XrmState) (xFileName xDirname : String)
    (readX : String → Except String XPathRepository) (xr : XPathRepository)
    (st₁ : XrmState)
    (hL : loadRepository s fileName readRepo dirname = .ok s₁)
    (hX : xrmLoadRepository st xFileName readX xDirname = .ok (xr, st₁)) :
    loadRepository s₁ fileName readRepo dirname = .ok s₁ ∧
    xrmLoadRepository st₁ xFileName readX xDirname = .ok (xr, st₁) := by
  constructor
  · simp only [loadRepository] at hL ⊢
    cases hread : readRepo (repoFilePath dirname fileName) with
    | error e =>
      rw [hread] at hL
      exact absurd hL (by simp)
    | ok repo =>
      rw [hread] at hL
      injection hL with hst
      subst hst
      rfl
  · simp only [xrmLoadRepository] at hX ⊢
    cases hlk : lookupKV st.repositories xFileName with
    | some repo =>
      rw [hlk] at hX
      injection hX with hpair
      injection hpair with hx hst
      subst hx
      subst hst
      rw [hlk]
    | none =>
      rw [hlk] at hX
      cases hread : readX (xrmFilePath xDirname xFileName) with
      | error e =>
        rw [hread] at hX
        exact absurd hX (by simp)
      | ok repo =>
        rw [hread] at hX
        injection hX with hpair
        injection hpair with hx hst
        subst hx
        subst hst
        have hmem : lookupKV (mapSet st.repositories xFileName repo) xFileName =
            some repo := by
          rw [lookupKV_mapSet_of_none st.repositories xFileName xFileName repo hlk]
          simp
        simp [hmem]

/-- C9 witness: loading `patterns` (resp. `loginPage`) a second time returns
the very state the first load produced. -/
theorem C9_idempotent_load_witness :
    loadRepository loadedManagerState "patterns" demoRead "managers" =
      .ok loadedManagerState ∧
    xrmLoadRepository { repositories := [("loginPage", demoXRepo)] } "loginPage"
      demoReadX "managers" =
      .ok (demoXRepo, { repositories := [("loginPage", demoXRepo)] }) :=
  C9_idempotent_load initManagerState "patterns" "managers" demoRead
    loadedManagerState { repositories := [] } "loginPage" "managers" demoReadX
    demoXRepo { repositories := [("loginPage", demoXRepo)] } rfl rfl

/-- C10: Suffix appending — from an empty-cache state, every successful
template resolution returns the substituted pattern string with the
suffix of the template appended at the end (the empty suffix when none is
defined, leaving the substituted pattern unchanged), on the primary path
with `fallbackUsed = false` and on the fallback path with
`fallbackUsed = true`. -/
theorem C10_suffix_appended (s : ManagerState) (tp : String) (rp : Params)
    {repo : PatternRepository} {t : TemplateDefinition}
    (r : LocatorBuildResult) (s₁ : ManagerState)
    (hr : s.repository = some repo) (hcache : s.cache = [])
    (ht : getTemplate (some repo) tp = .ok t)
    (hok : buildFromTemplate s tp rp = .ok (r, s₁)) :
    (r.fallbackUsed = false ∧ ∃ pat, getPattern (some repo) t.pattern = .ok pat ∧
       r.locator = replaceParameters pat (resolvedParameters t rp) ++ t.suffix.getD "") ∨
    (r.fallbackUsed = true ∧ ∃ fb fbpat, t.fallback = some fb ∧
       getPattern (some repo) fb.pattern = .ok fbpat ∧
       r.locator = replaceParameters fbpat (resolvedFallbackParameters fb rp) ++
         t.suffix.getD "") := by
  cases hp : getPattern (some repo) t.pattern with
  | ok pat =>
    rw [buildFromTemplate_primary hr ht hp (cacheServe_of_empty hcache _)] at hok
    injection hok with hpair
    injection hpair with hrec hst
    subst hrec
    exact Or.inl ⟨rfl, pat, rfl, addSuffix_eq t _⟩
  | error eP =>
    cases hfb : t.fallback with
    | none =>
      rw [buildFromTemplate_noFallback hr ht hp (cacheServe_of_empty hcache _) hfb] at hok
      exact absurd hok (by simp)
    | some fb =>
      cases hfp : getPattern (some repo) fb.pattern with
      | ok fbpat =>
        rw [buildFromTemplate_fallback hr ht hp (cacheServe_of_empty hcache _) hfb hfp
          (cacheServe_of_empty hcache _)] at hok
        injection hok with hpair
        injection hpair with hrec hst
        subst hrec
        exact Or.inr ⟨rfl, fb, fbpat, rfl, hfp, addSuffix_eq t _⟩
      | error e₂ =>
        have hble : buildLocator s t.pattern (resolvedParameters t rp) = .error eP :=
          buildLocator_err hr (cacheServe_of_empty hcache _) hp
        have hblf : buildLocator s fb.pattern (resolvedFallbackParameters fb rp) =
            .error e₂ :=
          buildLocator_err hr (cacheServe_of_empty hcache _) hfp
        rw [buildFromTemplate_fallbackErrRaw hr ht hble hfb hblf] at hok
        exact absurd hok (by simp)

/-- C10 witness: a suffixed username-field template appends `[1]` on the
primary path and, with the primary pattern deleted, on the fallback path. -/
theorem C10_suffix_appended_witness :
    (∃ r s₁,
       buildFromTemplate (freshState suffixRepo) "loginPage.usernameField" [] =
         .ok (r, s₁) ∧
       ((r.fallbackUsed = false ∧ ∃ pat,
           getPattern (some suffixRepo) tmplSuffixed.pattern = .ok pat ∧
           r.locator = replaceParameters pat (resolvedParameters tmplSuffixed []) ++
             tmplSuffixed.suffix.getD "") ∨
        (r.fallbackUsed = true ∧ ∃ fb fbpat, tmplSuffixed.fallback = some fb ∧
           getPattern (some suffixRepo) fb.pattern = .ok fbpat ∧
           r.locator = replaceParameters fbpat (resolvedFallbackParameters fb []) ++
             tmplSuffixed.suffix.getD ""))) ∧
    (∃ r s₁,
       buildFromTemplate (freshState suffixRepoNoPrimary) "loginPage.usernameField" [] =
         .ok (r, s₁) ∧
       ((r.fallbackUsed = false ∧ ∃ pat,
           getPattern (some suffixRepoNoPrimary) tmplSuffixed.pattern = .ok pat ∧
           r.locator = replaceParameters pat (resolvedParameters tmplSuffixed []) ++
             tmplSuffixed.suffix.getD "") ∨
        (r.fallbackUsed = true ∧ ∃ fb fbpat, tmplSuffixed.fallback = some fb ∧
           getPattern (some suffixRepoNoPrimary) fb.pattern = .ok fbpat ∧
           r.locator = replaceParameters fbpat (resolvedFallbackParameters fb []) ++
             tmplSuffixed.suffix.getD ""))) := by
  constructor
  · refine ⟨_, _, rfl, ?_⟩
    exact C10_suffix_appended (freshState suffixRepo) "loginPage.usernameField" []
      _ _ rfl rfl rfl rfl
  · refine ⟨_, _, rfl, ?_⟩
    exact C10_suffix_appended (freshState suffixRepoNoPrimary) "loginPage.usernameField" []
      _ _ rfl rfl rfl rfl

/-- C4 counterexample: against `demoRepo`, resolution of the username-field
template succeeds on the primary pattern and the element is reachable only
through the fallback locator; the claim predicts one fallback-intent
re-resolution (which here would succeed, so the step must not fail), but
`enterUsername` fails permanently with the pattern-naming error after a
single resolution — the browser-chain failure is caught and rethrown, never
retried. -/
theorem C4_timeout_retry_counterexample :
    enterUsername (freshState demoRepo) fallbackOnlyAct =
      .error "Failed to enter username using pattern: basic.inputByName" ∧
    fallbackOnlyAct "xpath=//input[@id=\x27username\x27]" = .ok () ∧
    (getTemplate (some demoRepo) "loginPage.usernameField").map
      (fun t => t.fallback.isSome) = .ok true :=
  ⟨rfl, rfl, rfl⟩

/-- C4 (amended): when the element does not reach the required state within
the timeout (the awaited browser chain fails), the pattern-template facade
actions do not retry resolution at all — `enterUsername` and
`clickLoginButton` fail permanently with an error naming the pattern used;
fallback selection happens only inside `buildFromTemplate`, at resolution
time, when the primary pattern is absent from the store. -/
theorem C4_no_timeout_retry (s : ManagerState)
    (act actB : String → Except String Unit)
    {r rB : LocatorBuildResult} {s₁ sB : ManagerState} {m mB : String}
    (h₁ : buildFromTemplate s "loginPage.usernameField" [] = .ok (r, s₁))
    (h₂ : act ("xpath=" ++ r.locator) = .error m)
    (h₃ : buildFromTemplate s "loginPage.loginButton" [] = .ok (rB, sB))
    (h₄ : actB ("xpath=" ++ rB.locator) = .error mB) :
    enterUsername s act =
      .error ("Failed to enter username using pattern: " ++ r.patternUsed) ∧
    clickLoginButton s actB =
      .error ("Failed to click login button using pattern: " ++ rB.patternUsed) := by
  constructor
  · simp [enterUsername, h₁, h₂]
  · simp [clickLoginButton, h₃, h₄]

/-- C4 witness: both facade actions fail with the pattern-naming error when
the browser chain times out on the resolved locator. -/
theorem C4_no_timeout_retry_witness :
    enterUsername (freshState demoRepo) fallbackOnlyAct =
      .error ("Failed to enter username using pattern: " ++ "basic.inputByName") ∧
    clickLoginButton (freshState demoRepo) fallbackOnlyAct =
      .error ("Failed to click login button using pattern: " ++ "basic.buttonByText") :=
  C4_no_timeout_retry (freshState demoRepo) fallbackOnlyAct fallbackOnlyAct
    rfl rfl rfl rfl
